import Mathlib

/-!
SCIRun: renderer object list (`SRInterface`) and bundle writer (`WriteBundleAlgorithm`)

A shallow embedding of

* `src/Interface/Modules/Render/ES/SRInterface.cc`:
  `getEntityIDForName`, `handleGeomObject`, `removeAllGeomObjects`, `gcInvalidObjects`;
* `src/Core/Algorithms/DataIO/WriteBundle.cc`: `WriteBundleAlgorithm::run`.

Calls into the third-party entity system (`mCore`, the VBO/IBO/shader managers, the GL
context) are recorded, in program order, in an event trace carried by the renderer state.
Types and functions that the two files use but do not define (`Core::Geometry::BBox`,
`std::hash<std::string>`, `boost::filesystem::extension`, the stream writers) are taken as
parameters.
-/

namespace SCIRun

namespace Render

/-! ## Data model of `Core::Datatypes::GeometryObject` as read by `handleGeomObject` -/

/-- The render types that `handleGeomObject` distinguishes. -/
inductive RenderType
  | RENDER_VBO_IBO
  | RENDER_RLIST_SPHERE
  | RENDER_RLIST_CYLINDER
  deriving DecidableEq, Repr

/-- The colour schemes that `handleGeomObject` distinguishes. -/
inductive ColorScheme
  | COLOR_UNIFORM
  | COLOR_MAP
  | COLOR_IN_SITU
  deriving DecidableEq, Repr

/-- The primitive kinds of `SpireIBO::prim`. -/
inductive Primitive
  | POINTS
  | LINES
  | TRIANGLES
  deriving DecidableEq, Repr

/-- The OpenGL enumerants that `handleGeomObject` hands to the IBO manager. -/
inductive GLenum
  | GL_UNSIGNED_BYTE
  | GL_UNSIGNED_SHORT
  | GL_UNSIGNED_INT
  | GL_POINTS
  | GL_LINES
  | GL_TRIANGLES
  deriving DecidableEq, Repr

/-- The two uniform kinds of `SpireSubPass::Uniform::type`. -/
inductive UniformType
  | UNIFORM_SCALAR
  | UNIFORM_VEC4
  deriving DecidableEq, Repr

/-- One entry of `SpireVBO::attributes`. -/
structure AttributeData where
  name : String
  sizeInBytes : Nat
  normalize : Bool
  deriving DecidableEq, Repr

/-- The fields of `SpireVBO` that are read; `bufferSize` is `data->getBufferSize()`. -/
structure SpireVBO (B : Type) where
  name : String
  attributes : List AttributeData
  bufferSize : Nat
  numElements : Nat
  onGPU : Bool
  boundingBox : B

/-- The fields of `SpireIBO` that are read; `bufferSize` is `data->getBufferSize()`. -/
structure SpireIBO where
  name : String
  prim : Primitive
  indexSize : Nat
  bufferSize : Nat
  deriving DecidableEq, Repr

/-- A uniform of a sub pass (its floating point payload is not represented). -/
structure Uniform where
  name : String
  type : UniformType
  deriving DecidableEq, Repr

/-- The fields of `SpireSubPass` that are read (the floating point `scalar` and the render
state payload are not represented). -/
structure SpireSubPass where
  passName : String
  vboName : String
  iboName : String
  programName : String
  renderType : RenderType
  mColorScheme : ColorScheme
  mUniforms : List Uniform
  deriving DecidableEq, Repr

/-- The geometry object handed to the renderer. -/
structure GeometryObject (B : Type) where
  objectName : String
  mVBOs : List (SpireVBO B)
  mIBOs : List SpireIBO
  mPasses : List SpireSubPass
  mColorMap : Option String

/-! ## Renderer state -/

/-- The entry `SRObject::SRPass`, built by `emplace_back(pass.passName, pass.renderType)`. -/
structure SRPass where
  passName : String
  renderType : RenderType
  deriving DecidableEq, Repr

/-- The entry `SRObject` of the object list, built by
`SRObject(objectName, xform, bbox, obj->mColorMap, port)`; the transform is always the
default constructed matrix and is not represented. -/
structure SRObject (B : Type) where
  mName : String
  mPasses : List SRPass
  mBBox : B
  mColorMap : Option String
  mPort : Int

/-- The colour map textures a pass can be bound to. -/
inductive ColorMapTexture
  | rainbow
  | blackBody
  | grayscale
  deriving DecidableEq, Repr

/-- The components attached to an entity with `mCore.addComponent`. -/
inductive Component
  | vbo (name : String)
  | ibo (name : String)
  | renderList (vboName : String) (renderType : RenderType) (numElements : Nat)
  | transform (scaled : Bool)
  | lightingUniforms
  | renderState
  | renderBasicGeom
  | renderColorMapGeom
  | texture (glid : ColorMapTexture)
  | commonUniforms
  | subPass (passName : String)
  deriving DecidableEq, Repr

/-- The calls made on the GL context, the entity core and its managers. -/
inductive Event
  | makeCurrent
  | removeEntity (entityID : Nat)
  | renormalize
  | vboRunGCCycle
  | iboRunGCCycle
  | addInMemoryVBO (name : String) (size : Nat) (attributes : List AttributeData)
  | addInMemoryIBO (name : String) (size : Nat) (primitive primType : GLenum) (numPrimitives : Int)
  | addComponent (entityID : Nat) (c : Component)
  | loadVertexAndFragmentShader (entityID : Nat) (programName : String)
  | addGLUniform (entityID : Nat) (name : String) (type : UniformType)
  | cerr (msg : String)
  deriving DecidableEq, Repr

/-- The operations of `Core::Geometry::BBox` used by the renderer, taken as parameters since
the class is declared outside these sources: `empty` is the default constructed box,
`valid b` is `b.valid()`, `reset b` is `b` after `b.reset()`, and `extend a b` is `a` after
`a.extend(b)`. -/
structure BBoxOps (B : Type) where
  empty : B
  valid : B → Bool
  reset : B → B
  extend : B → B → B

/-- The members of `SRInterface` that the modelled functions read or write, with the trace of
external calls made so far. -/
structure SRInterface (B : Type) where
  mSRObjects : List (SRObject B)
  mSceneBBox : B
  trace : List Event

/-- How a call ended: normally, or with `std::invalid_argument(what)`. -/
inductive Outcome
  | returned
  | invalidArgument (what : String)
  deriving DecidableEq, Repr

section Model

variable {B : Type}

/-- `static_cast<uint64_t>(port)` for an `int` port. -/
def castU64 (port : Int) : Nat := (port % (2 ^ 64 : Int)).toNat

/-- `SRInterface::getEntityIDForName`: the top 56 bits of the 64 bit string hash, with the
low byte of the port in bits 56 to 63. -/
def getEntityIDForName (strHash : String → Nat) (name : String) (port : Int) : Nat :=
  (((strHash name % 2 ^ 64) >>> 8) + ((castU64 port <<< 56) % 2 ^ 64)) % 2 ^ 64

/-- The `removeEntity` loop over the passes of a stored object, for the port `port`. -/
def removePassEntities (strHash : String → Nat) (passes : List SRPass) (port : Int) :
    List Event :=
  passes.map (fun pass => Event.removeEntity (getEntityIDForName strHash pass.passName port))

/-- The body of `if (foundObject != mSRObjects.end())` in `handleGeomObject`. -/
def removeFoundObject (strHash : String → Nat) (objectName : String) (port : Int)
    (s : SRInterface B) : SRInterface B :=
  match s.mSRObjects.find? (fun o => o.mName == objectName) with
  | none => s
  | some found =>
    { s with
      trace := s.trace ++ removePassEntities strHash found.mPasses port
        ++ [Event.renormalize, Event.vboRunGCCycle, Event.iboRunGCCycle]
      mSRObjects := s.mSRObjects.eraseP (fun o => o.mName == objectName) }

/-- The loop "Add vertex buffer objects": the events it emits. -/
def vboEvents (vbos : List (SpireVBO B)) : List Event :=
  (vbos.filter (fun vbo => vbo.onGPU)).map
    (fun vbo => Event.addInMemoryVBO vbo.name vbo.bufferSize vbo.attributes)

/-- The loop "Add vertex buffer objects": the bounding box it accumulates. -/
def vboBBox (ops : BBoxOps B) (vbos : List (SpireVBO B)) : B :=
  vbos.foldl (fun bbox vbo => ops.extend bbox vbo.boundingBox) ops.empty

/-- The `switch (ibo.indexSize)`: the GL index type, or none where the code throws. -/
def primTypeOf (indexSize : Nat) : Option GLenum :=
  match indexSize with
  | 1 => some GLenum.GL_UNSIGNED_BYTE
  | 2 => some GLenum.GL_UNSIGNED_SHORT
  | 4 => some GLenum.GL_UNSIGNED_INT
  | _ => none

/-- The `switch (ibo.prim)`. -/
def primitiveOf (prim : Primitive) : GLenum :=
  match prim with
  | Primitive.POINTS => GLenum.GL_POINTS
  | Primitive.LINES => GLenum.GL_LINES
  | Primitive.TRIANGLES => GLenum.GL_TRIANGLES

/-- The conversion of a `size_t` quotient to `int`. -/
def toInt32 (n : Nat) : Int := Int.bmod (n : Int) (2 ^ 32)

/-- The loop "Add index buffer objects": the events emitted, and how the loop ended. -/
def iboLoop : List SpireIBO → Outcome × List Event
  | [] => (Outcome.returned, [])
  | ibo :: rest =>
    match primTypeOf ibo.indexSize with
    | none => (Outcome.invalidArgument "Unable to determine index buffer depth.", [])
    | some primType =>
      let ev := Event.addInMemoryIBO ibo.name ibo.bufferSize (primitiveOf ibo.prim) primType
        (toInt32 (ibo.bufferSize / ibo.indexSize))
      let r := iboLoop rest
      (r.1, ev :: r.2)

/-- Apply `f` to the last element of a list (`mSRObjects.back()`). -/
def modifyBack {α : Type} (f : α → α) : List α → List α
  | [] => []
  | [a] => [f a]
  | a :: b :: rest => a :: modifyBack f (b :: rest)

/-- The render list part of a pass that is not `RENDER_VBO_IBO`. -/
def renderListEvents (entityID : Nat) (vbos : List (SpireVBO B)) (pass : SpireSubPass) :
    List Event :=
  match vbos.find? (fun vbo => vbo.name == pass.vboName) with
  | some vbo =>
    [Event.addComponent entityID (Component.renderList vbo.name pass.renderType vbo.numElements)]
  | none => []

/-- The asset name chosen for a render list pass. -/
def assetNameOf (renderType : RenderType) : String :=
  if renderType = RenderType.RENDER_RLIST_CYLINDER then "Assests/arrow.geom"
  else "Assets/sphere.geom"

/-- The colour scheme part of a pass. -/
def colorSchemeEvents (entityID : Nat) (mColorMap : Option String) (pass : SpireSubPass) :
    List Event :=
  if pass.mColorScheme = ColorScheme.COLOR_UNIFORM
      ∨ pass.mColorScheme = ColorScheme.COLOR_IN_SITU then
    [Event.addComponent entityID Component.renderBasicGeom]
  else
    match pass.mColorScheme, mColorMap with
    | ColorScheme.COLOR_MAP, some cmap =>
      [Event.addComponent entityID Component.renderColorMapGeom,
       Event.addComponent entityID (Component.texture
        (if cmap = "Rainbow" then ColorMapTexture.rainbow
         else if cmap = "Blackbody" then ColorMapTexture.blackBody
         else ColorMapTexture.grayscale))]
    | _, _ =>
      [Event.cerr "Renderer: Unknown color scheme!",
       Event.addComponent entityID Component.renderBasicGeom]

/-- The events of one iteration of the loop "Add passes". -/
def passEvents (strHash : String → Nat) (obj : GeometryObject B) (port : Int)
    (pass : SpireSubPass) : List Event :=
  let entityID := getEntityIDForName strHash pass.passName port
  (if pass.renderType = RenderType.RENDER_VBO_IBO then
    [Event.addComponent entityID (Component.vbo pass.vboName),
     Event.addComponent entityID (Component.ibo pass.iboName)]
   else
    renderListEvents entityID obj.mVBOs pass
      ++ [Event.addComponent entityID (Component.vbo (assetNameOf pass.renderType)),
          Event.addComponent entityID (Component.ibo (assetNameOf pass.renderType))])
  ++ [Event.loadVertexAndFragmentShader entityID pass.programName,
      Event.addComponent entityID
        (Component.transform (decide (pass.renderType = RenderType.RENDER_RLIST_SPHERE))),
      Event.addComponent entityID Component.lightingUniforms,
      Event.addComponent entityID Component.renderState]
  ++ colorSchemeEvents entityID obj.mColorMap pass
  ++ [Event.addComponent entityID Component.commonUniforms]
  ++ pass.mUniforms.map (fun u => Event.addGLUniform entityID u.name u.type)
  ++ [Event.addComponent entityID (Component.subPass pass.passName)]

/-- One iteration of the loop "Add passes": the external calls, and
`elem.mPasses.emplace_back(pass.passName, pass.renderType)` on the last list entry. -/
def addPass (strHash : String → Nat) (obj : GeometryObject B) (port : Int)
    (s : SRInterface B) (pass : SpireSubPass) : SRInterface B :=
  { s with
    trace := s.trace ++ passEvents strHash obj port pass
    mSRObjects := modifyBack
      (fun elem => { elem with mPasses := elem.mPasses ++ [⟨pass.passName, pass.renderType⟩] })
      s.mSRObjects }

/-- The loop "Recalculate scene bounding box". -/
def recalcSceneBBox (ops : BBoxOps B) (s : SRInterface B) : SRInterface B :=
  { s with
    mSceneBBox := s.mSRObjects.foldl
      (fun scene o => if ops.valid o.mBBox then ops.extend scene o.mBBox else scene)
      (ops.reset s.mSceneBBox) }

/-- `SRInterface::handleGeomObject(obj, port)`: the outcome and the renderer afterwards.  When
the index buffer loop throws, the statements after it are not run and the renderer is left as
it was at the throw. -/
def handleGeomObject (ops : BBoxOps B) (strHash : String → Nat) (s : SRInterface B)
    (obj : GeometryObject B) (port : Int) : Outcome × SRInterface B :=
  let s1 : SRInterface B := { s with trace := s.trace ++ [Event.makeCurrent] }
  let s2 := removeFoundObject strHash obj.objectName port s1
  let s3 : SRInterface B := { s2 with trace := s2.trace ++ vboEvents obj.mVBOs }
  let bbox := vboBBox ops obj.mVBOs
  let r := iboLoop obj.mIBOs
  let s4 : SRInterface B := { s3 with trace := s3.trace ++ r.2 }
  match r.1 with
  | Outcome.invalidArgument what => (Outcome.invalidArgument what, s4)
  | Outcome.returned =>
    let s5 : SRInterface B :=
      { s4 with mSRObjects := s4.mSRObjects ++ [⟨obj.objectName, [], bbox, obj.mColorMap, port⟩] }
    let s6 := obj.mPasses.foldl (addPass strHash obj port) s5
    (Outcome.returned, recalcSceneBBox ops s6)

/-- The renderer just before the pass loop, when the index buffer loop did not throw. -/
def beforePasses (ops : BBoxOps B) (strHash : String → Nat) (s : SRInterface B)
    (obj : GeometryObject B) (port : Int) : SRInterface B :=
  let s2 := removeFoundObject strHash obj.objectName port
    { s with trace := s.trace ++ [Event.makeCurrent] }
  { s2 with
    trace := s2.trace ++ vboEvents obj.mVBOs ++ (iboLoop obj.mIBOs).2
    mSRObjects := s2.mSRObjects
      ++ [⟨obj.objectName, [], vboBBox ops obj.mVBOs, obj.mColorMap, port⟩] }

/-- `SRInterface::removeAllGeomObjects`. -/
def removeAllGeomObjects (strHash : String → Nat) (s : SRInterface B) : SRInterface B :=
  { s with
    trace := s.trace ++ [Event.makeCurrent]
      ++ s.mSRObjects.flatMap (fun o => removePassEntities strHash o.mPasses o.mPort)
      ++ [Event.renormalize]
    mSRObjects := [] }

/-- The loop of `gcInvalidObjects` from the iterator position on: `kept` are the entries
already passed over, `rest` the entries from the iterator to the end. -/
def gcLoop (strHash : String → Nat) (validObjects : List String) :
    List (SRObject B) → List (SRObject B) → List Event → List (SRObject B) × List Event
  | kept, [], trace => (kept, trace)
  | kept, o :: rest, trace =>
    if validObjects.contains o.mName then
      gcLoop strHash validObjects (kept ++ [o]) rest trace
    else
      gcLoop strHash validObjects kept rest
        (trace ++ removePassEntities strHash o.mPasses o.mPort)

/-- `SRInterface::gcInvalidObjects(validObjects)`. -/
def gcInvalidObjects (strHash : String → Nat) (validObjects : List String)
    (s : SRInterface B) : SRInterface B :=
  let r := gcLoop strHash validObjects [] s.mSRObjects s.trace
  { s with mSRObjects := r.1, trace := r.2 ++ [Event.renormalize] }

/-- The entity IDs passed to `mCore.removeEntity`, in call order. -/
def removedEntities (trace : List Event) : List Nat :=
  trace.filterMap (fun e => match e with
    | Event.removeEntity entityID => some entityID
    | _ => none)

/-- The index types passed to `iboMan.addInMemoryIBO`, with the buffer names, in call
order. -/
def iboPrimTypes (trace : List Event) : List (String × GLenum) :=
  trace.filterMap (fun e => match e with
    | Event.addInMemoryIBO name _ _ primType _ => some (name, primType)
    | _ => none)

/-! ## Concrete inputs used to evaluate the model -/

/-- A one dimensional box over the integers: `none` is the invalid box, `some (lo, hi)` the
interval from `lo` to `hi`.  It instantiates `BBoxOps` for concrete evaluation. -/
def intervalBox : BBoxOps (Option (Int × Int)) where
  empty := none
  valid b := b.isSome
  reset _ := none
  extend a b :=
    match a, b with
    | a, none => a
    | none, some x => some x
    | some (lo, hi), some (lo2, hi2) => some (min lo lo2, max hi hi2)

/-- A renderer with no objects and no calls made. -/
def emptyRenderer : SRInterface (Option (Int × Int)) :=
  { mSRObjects := [], mSceneBBox := none, trace := [] }

/-- A geometry object "field" with one vertex buffer, one 16 bit index buffer and one pass. -/
def fieldObject : GeometryObject (Option (Int × Int)) :=
  { objectName := "field"
    mVBOs := [⟨"vbo", [⟨"aPos", 12, false⟩], 36, 3, true, some (0, 5)⟩]
    mIBOs := [⟨"ibo", Primitive.TRIANGLES, 2, 6⟩]
    mPasses := [⟨"facesPass", "vbo", "ibo", "Shaders/UniformColor", RenderType.RENDER_VBO_IBO,
      ColorScheme.COLOR_UNIFORM, []⟩]
    mColorMap := none }

/-- A geometry object "glyphs" with no buffers of its own and one sphere pass. -/
def glyphObject : GeometryObject (Option (Int × Int)) :=
  { objectName := "glyphs"
    mVBOs := []
    mIBOs := []
    mPasses := [⟨"spherePass", "none", "none", "Shaders/Sphere", RenderType.RENDER_RLIST_SPHERE,
      ColorScheme.COLOR_IN_SITU, []⟩]
    mColorMap := none }

/-- A renderer that already stores "glyphs" (port 3) and "field" (port 0). -/
def twoObjectRenderer : SRInterface (Option (Int × Int)) :=
  { mSRObjects :=
      [⟨"glyphs", [⟨"spherePass", RenderType.RENDER_RLIST_SPHERE⟩], none, none, 3⟩,
       ⟨"field", [⟨"facesPass", RenderType.RENDER_VBO_IBO⟩], some (1, 2), none, 0⟩]
    mSceneBBox := some (1, 2)
    trace := [] }

end Model

end Render

namespace WriteBundleAlgorithm

/-! ## `WriteBundleAlgorithm::run` -/

/-- The exceptions raised through the algorithm precondition macros: the input error by
`ENSURE_ALGORITHM_INPUT_NOT_NULL`, the processing error by
`THROW_ALGORITHM_PROCESSING_ERROR`. -/
inductive AlgorithmError
  | inputError (msg : String)
  | processingError (msg : String)
  deriving DecidableEq, Repr

/-- The messages sent to the algorithm logger with `status` and `error`. -/
inductive LogMessage
  | status (msg : String)
  | error (msg : String)
  deriving DecidableEq, Repr

/-- What the call did to files: an output stream that could not be opened, or a file opened
for writing and filled with `bytes`. -/
inductive FileOp
  | openFailed (path : String)
  | wrote (path : String) (bytes : List Nat)
  deriving DecidableEq, Repr

/-- The library functions `run` calls: `boost::filesystem::extension`, the text output
operator of a bundle, and the binary `Pio` serialisation of a bundle. -/
structure Writers (Bundle : Type) where
  extension : String → String
  textOf : Bundle → List Nat
  pioOf : Bundle → List Nat

/-- The environment of `run`: the content of every existing path, whether a path can be
opened for writing, the file operations performed so far and the logger output so far. -/
structure World where
  files : String → Option (List Nat)
  canOpen : String → Bool
  fileOps : List FileOp
  log : List LogMessage

/-- Modelled from the spec: the macro `ENSURE_ALGORITHM_INPUT_NOT_NULL(var, message)` of
`Core/Algorithms/Base/AlgorithmPreconditions.h`, which is not part of the sources; on a null
pointer it raises the algorithm input error carrying `message`, otherwise execution goes on
with the pointee. -/
def ensureAlgorithmInputNotNull {α : Type} (var : Option α) (message : String) :
    Except AlgorithmError α :=
  match var with
  | none => Except.error (AlgorithmError.inputError message)
  | some a => Except.ok a

/-- Opening `filename` for output and sending `bytes` to the stream: a stream that failed to
open drops what is written to it. -/
def writeFile (w : World) (filename : String) (bytes : List Nat) : World :=
  if w.canOpen filename then
    { w with
      files := fun p => if p = filename then some bytes else w.files p
      fileOps := w.fileOps ++ [FileOp.wrote filename bytes] }
  else
    { w with fileOps := w.fileOps ++ [FileOp.openFailed filename] }

/-- The two extension branches of `run` for a bundle that is not null.  In the `.bdl` branch
`writeFile` stands for `auto_ostream` followed by `Pio`, and the test on `canOpen` for
`stream->error()`: a stream in error gets the logger message and no `Pio`. -/
def writeByExtension {Bundle : Type} (env : Writers Bundle) (w : World) (bundle : Bundle)
    (filename : String) : World :=
  if env.extension filename = ".txt" then
    writeFile w filename (env.textOf bundle)
  else if env.extension filename = ".bdl" then
    let w1 : World :=
      { w with log := w.log ++ [LogMessage.status "Writing bundle file as binary .bdl"] }
    let w2 := writeFile w1 filename (env.pioOf bundle)
    if w1.canOpen filename then w2
    else
      { w2 with
        log := w2.log ++ [LogMessage.error ("Could not open file for writing: " ++ filename)] }
  else w

/-- `WriteBundleAlgorithm::run(inputBundle, filename)`: the exception raised, if any, and the
environment afterwards. -/
def run {Bundle : Type} (env : Writers Bundle) (w : World) (inputBundle : Option Bundle)
    (filename : String) : Option AlgorithmError × World :=
  match ensureAlgorithmInputNotNull inputBundle "Cannot write null bundle." with
  | Except.error e => (some e, w)
  | Except.ok bundle =>
    let w1 := writeByExtension env w bundle filename
    if (w1.files filename).isSome then (none, w1)
    else (some (AlgorithmError.processingError "file failed to be written!"), w1)

/-- Whether the call that led from `before` to `after` wrote to `filename`. -/
def wroteTo (before after : World) (filename : String) : Bool :=
  (after.fileOps.drop before.fileOps.length).any (fun op =>
    match op with
    | FileOp.wrote path _ => path == filename
    | FileOp.openFailed _ => false)

/-- The text from the last dot of a name on, empty when the name has no dot. -/
def lastDotSuffix : List Char → List Char
  | [] => []
  | c :: rest =>
    if rest.contains '.' then lastDotSuffix rest
    else if c = '.' then c :: rest
    else []

/-- Sample library functions for concrete evaluation: the extension is the text from the last
dot on, bundles are byte lists written as they are. -/
def sampleWriters : Writers (List Nat) where
  extension name := String.mk (lastDotSuffix name.data)
  textOf b := b
  pioOf b := b

/-- A world in which `results.mat` already exists and every path can be opened. -/
def sampleWorld : World :=
  { files := fun p => if p = "results.mat" then some [7, 7] else none
    canOpen := fun _ => true
    fileOps := []
    log := [] }

end WriteBundleAlgorithm

namespace Render

section Lemmas

variable {B : Type}

/-! ## Lemmas on the list helpers -/

theorem modifyBack_append_singleton {α : Type} (f : α → α) (xs : List α) (e : α) :
    modifyBack f (xs ++ [e]) = xs ++ [f e] := by
  induction xs with
  | nil => rfl
  | cons a rest ih =>
    cases rest with
    | nil => rfl
    | cons b rest2 =>
      have h : (a :: b :: rest2) ++ [e] = a :: b :: (rest2 ++ [e]) := rfl
      rw [h, modifyBack]
      simpa using ih

theorem eraseP_name_eq_filter (name : String) (l : List (SRObject B))
    (hnodup : (l.map (fun o => o.mName)).Nodup) :
    l.eraseP (fun o => o.mName == name) = l.filter (fun o => o.mName != name) := by
  induction l with
  | nil => rfl
  | cons o rest ih =>
    rw [List.map_cons, List.nodup_cons] at hnodup
    by_cases h : o.mName = name
    · have hrest : ∀ x ∈ rest, (x.mName != name) = true := by
        intro x hx
        have hne : x.mName ≠ name := by
          intro hxn
          exact hnodup.1 (List.mem_map.mpr ⟨x, hx, by rw [hxn, h]⟩)
        simpa using hne
      simp [List.eraseP_cons, h, List.filter_eq_self.mpr hrest]
    · simp [List.eraseP_cons, h, ih hnodup.2]

theorem removedEntities_append (t u : List Event) :
    removedEntities (t ++ u) = removedEntities t ++ removedEntities u := by
  simp [removedEntities, List.filterMap_append]

theorem removedEntities_removePassEntities (strHash : String → Nat) (passes : List SRPass)
    (port : Int) :
    removedEntities (removePassEntities strHash passes port)
      = passes.map (fun p => getEntityIDForName strHash p.passName port) := by
  induction passes with
  | nil => rfl
  | cons p rest ih =>
    simp only [removePassEntities, removedEntities, List.map_cons, List.filterMap_cons] at ih ⊢
    rw [ih]

theorem iboPrimTypes_append (t u : List Event) :
    iboPrimTypes (t ++ u) = iboPrimTypes t ++ iboPrimTypes u := by
  simp [iboPrimTypes, List.filterMap_append]

/-! ## Lemmas on the steps of `handleGeomObject` -/

theorem removeFoundObject_objects (strHash : String → Nat) (name : String) (port : Int)
    (s : SRInterface B) :
    (removeFoundObject strHash name port s).mSRObjects
      = s.mSRObjects.eraseP (fun o => o.mName == name) := by
  unfold removeFoundObject
  cases hfind : s.mSRObjects.find? (fun o => o.mName == name) with
  | none =>
    simp only
    rw [List.find?_eq_none] at hfind
    rw [List.eraseP_of_forall_not]
    intro a ha
    exact hfind a ha
  | some found => rfl

theorem removeFoundObject_sceneBBox (strHash : String → Nat) (name : String) (port : Int)
    (s : SRInterface B) :
    (removeFoundObject strHash name port s).mSceneBBox = s.mSceneBBox := by
  unfold removeFoundObject
  cases s.mSRObjects.find? (fun o => o.mName == name) <;> rfl

theorem removeFoundObject_trace (strHash : String → Nat) (name : String) (port : Int)
    (s : SRInterface B) :
    (removeFoundObject strHash name port s).trace
      = s.trace ++ (match s.mSRObjects.find? (fun o => o.mName == name) with
          | none => []
          | some found => removePassEntities strHash found.mPasses port
              ++ [Event.renormalize, Event.vboRunGCCycle, Event.iboRunGCCycle]) := by
  unfold removeFoundObject
  cases s.mSRObjects.find? (fun o => o.mName == name) with
  | none => simp
  | some found => simp

theorem foldl_addPass_objects (strHash : String → Nat) (obj : GeometryObject B) (port : Int)
    (passes : List SpireSubPass) (s : SRInterface B) (xs : List (SRObject B))
    (e : SRObject B) (hs : s.mSRObjects = xs ++ [e]) :
    (passes.foldl (addPass strHash obj port) s).mSRObjects
      = xs ++ [{ e with
          mPasses := e.mPasses ++ passes.map (fun p => (⟨p.passName, p.renderType⟩ : SRPass)) }] := by
  induction passes generalizing s e with
  | nil => simp [hs]
  | cons p rest ih =>
    rw [List.foldl_cons]
    rw [ih (addPass strHash obj port s p)
      { e with mPasses := e.mPasses ++ [⟨p.passName, p.renderType⟩] }]
    · simp
    · simp [addPass, hs, modifyBack_append_singleton]

theorem foldl_addPass_sceneBBox (strHash : String → Nat) (obj : GeometryObject B) (port : Int)
    (passes : List SpireSubPass) (s : SRInterface B) :
    (passes.foldl (addPass strHash obj port) s).mSceneBBox = s.mSceneBBox := by
  induction passes generalizing s with
  | nil => rfl
  | cons p rest ih => rw [List.foldl_cons, ih]; rfl

theorem foldl_addPass_trace (strHash : String → Nat) (obj : GeometryObject B) (port : Int)
    (passes : List SpireSubPass) (s : SRInterface B) :
    (passes.foldl (addPass strHash obj port) s).trace
      = s.trace ++ passes.flatMap (passEvents strHash obj port) := by
  induction passes generalizing s with
  | nil => simp
  | cons p rest ih =>
    rw [List.foldl_cons, ih]
    simp [addPass, List.flatMap_cons, List.append_assoc]

theorem removedEntities_passEvents (strHash : String → Nat) (obj : GeometryObject B)
    (port : Int) (passes : List SpireSubPass) :
    removedEntities (passes.flatMap (passEvents strHash obj port)) = [] := by
  induction passes with
  | nil => rfl
  | cons p rest ih =>
    rw [List.flatMap_cons, removedEntities_append, ih, List.append_nil]
    unfold removedEntities
    rw [List.filterMap_eq_nil_iff]
    intro e he
    simp only [passEvents, renderListEvents, colorSchemeEvents, List.mem_append,
      List.mem_map] at he
    rcases he with ((((he | he) | he) | he) | he) | he
    · split at he
      · simp at he; rcases he with he | he <;> subst he <;> rfl
      · simp only [List.mem_append] at he
        rcases he with he | he
        · split at he
          · simp at he; subst he; rfl
          · simp at he
        · simp at he; rcases he with he | he <;> subst he <;> rfl
    · simp at he; rcases he with he | he | he | he <;> subst he <;> rfl
    · split at he
      · simp at he; subst he; rfl
      · split at he
        · simp at he; rcases he with he | he <;> subst he <;> rfl
        · simp at he; rcases he with he | he <;> subst he <;> rfl
    · simp at he; subst he; rfl
    · obtain ⟨u, _, hu⟩ := he; subst hu; rfl
    · simp at he; subst he; rfl

theorem iboPrimTypes_passEvents (strHash : String → Nat) (obj : GeometryObject B)
    (port : Int) (passes : List SpireSubPass) :
    iboPrimTypes (passes.flatMap (passEvents strHash obj port)) = [] := by
  induction passes with
  | nil => rfl
  | cons p rest ih =>
    rw [List.flatMap_cons, iboPrimTypes_append, ih, List.append_nil]
    unfold iboPrimTypes
    rw [List.filterMap_eq_nil_iff]
    intro e he
    simp only [passEvents, renderListEvents, colorSchemeEvents, List.mem_append,
      List.mem_map] at he
    rcases he with ((((he | he) | he) | he) | he) | he
    · split at he
      · simp at he; rcases he with he | he <;> subst he <;> rfl
      · simp only [List.mem_append] at he
        rcases he with he | he
        · split at he
          · simp at he; subst he; rfl
          · simp at he
        · simp at he; rcases he with he | he <;> subst he <;> rfl
    · simp at he; rcases he with he | he | he | he <;> subst he <;> rfl
    · split at he
      · simp at he; subst he; rfl
      · split at he
        · simp at he; rcases he with he | he <;> subst he <;> rfl
        · simp at he; rcases he with he | he <;> subst he <;> rfl
    · simp at he; subst he; rfl
    · obtain ⟨u, _, hu⟩ := he; subst hu; rfl
    · simp at he; subst he; rfl

theorem removedEntities_vboEvents (vbos : List (SpireVBO B)) :
    removedEntities (vboEvents vbos) = [] := by
  unfold removedEntities vboEvents
  rw [List.filterMap_eq_nil_iff]
  intro e he
  obtain ⟨v, _, hv⟩ := List.mem_map.mp he
  subst hv
  rfl

theorem primTypeOf_eq_none (n : Nat) :
    primTypeOf n = none ↔ n ≠ 1 ∧ n ≠ 2 ∧ n ≠ 4 := by
  match n with
  | 0 => simp [primTypeOf]
  | 1 => simp [primTypeOf]
  | 2 => simp [primTypeOf]
  | 3 => simp [primTypeOf]
  | 4 => simp [primTypeOf]
  | k + 5 => simp [primTypeOf]

theorem primTypeOf_eq_some (n : Nat) (t : GLenum) (h : primTypeOf n = some t) :
    (n = 1 ∨ n = 2 ∨ n = 4)
      ∧ t = (if n = 1 then GLenum.GL_UNSIGNED_BYTE
             else if n = 2 then GLenum.GL_UNSIGNED_SHORT else GLenum.GL_UNSIGNED_INT) := by
  match n with
  | 0 => simp [primTypeOf] at h
  | 1 => simp [primTypeOf] at h; simp [h]
  | 2 => simp [primTypeOf] at h; simp [h]
  | 3 => simp [primTypeOf] at h
  | 4 => simp [primTypeOf] at h; simp [h]
  | k + 5 => simp [primTypeOf] at h

theorem iboLoop_outcome (ibos : List SpireIBO) :
    ((iboLoop ibos).1 = Outcome.invalidArgument "Unable to determine index buffer depth."
        ↔ ∃ ibo ∈ ibos, ibo.indexSize ≠ 1 ∧ ibo.indexSize ≠ 2 ∧ ibo.indexSize ≠ 4)
      ∧ ((iboLoop ibos).1 = Outcome.returned
        ↔ ∀ ibo ∈ ibos, ibo.indexSize = 1 ∨ ibo.indexSize = 2 ∨ ibo.indexSize = 4) := by
  induction ibos with
  | nil => simp [iboLoop]
  | cons ibo rest ih =>
    unfold iboLoop
    cases hp : primTypeOf ibo.indexSize with
    | none =>
      have hbad := (primTypeOf_eq_none ibo.indexSize).mp hp
      constructor
      · simp only [true_iff]
        exact ⟨ibo, List.mem_cons_self _ _, hbad⟩
      · constructor
        · intro h; cases h
        · intro hall
          have := hall ibo (List.mem_cons_self _ _)
          omega
    | some t =>
      have hgood := (primTypeOf_eq_some ibo.indexSize t hp).1
      simp only [List.mem_cons, exists_eq_or_imp, forall_eq_or_imp]
      constructor
      · rw [ih.1]
        constructor
        · intro h; exact Or.inr h
        · intro h
          rcases h with h | h
          · omega
          · exact h
      · rw [ih.2]
        constructor
        · intro h; exact ⟨hgood, h⟩
        · intro h; exact h.2

theorem removedEntities_iboLoop (ibos : List SpireIBO) :
    removedEntities (iboLoop ibos).2 = [] := by
  induction ibos with
  | nil => rfl
  | cons ibo rest ih =>
    unfold iboLoop
    cases primTypeOf ibo.indexSize with
    | none => rfl
    | some t =>
      simp only
      unfold removedEntities at ih ⊢
      rw [List.filterMap_cons]
      exact ih

theorem iboPrimTypes_iboLoop (ibos : List SpireIBO) :
    iboPrimTypes (iboLoop ibos).2
      = (ibos.takeWhile (fun ibo =>
            decide (ibo.indexSize = 1 ∨ ibo.indexSize = 2 ∨ ibo.indexSize = 4))).map
          (fun ibo => (ibo.name,
            if ibo.indexSize = 1 then GLenum.GL_UNSIGNED_BYTE
            else if ibo.indexSize = 2 then GLenum.GL_UNSIGNED_SHORT
            else GLenum.GL_UNSIGNED_INT)) := by
  induction ibos with
  | nil => rfl
  | cons ibo rest ih =>
    unfold iboLoop
    cases hp : primTypeOf ibo.indexSize with
    | none =>
      have hbad := (primTypeOf_eq_none ibo.indexSize).mp hp
      have hdec : decide (ibo.indexSize = 1 ∨ ibo.indexSize = 2 ∨ ibo.indexSize = 4) = false := by
        rw [decide_eq_false_iff_not]; omega
      simp only [List.takeWhile_cons, hdec]
      rfl
    | some t =>
      obtain ⟨hgood, ht⟩ := primTypeOf_eq_some ibo.indexSize t hp
      have hdec : decide (ibo.indexSize = 1 ∨ ibo.indexSize = 2 ∨ ibo.indexSize = 4) = true := by
        rw [decide_eq_true_iff]; exact hgood
      simp only [List.takeWhile_cons, hdec, if_true, List.map_cons]
      unfold iboPrimTypes at ih ⊢
      rw [List.filterMap_cons]
      simp only
      rw [ih, ht]

theorem iboPrimTypes_vboEvents (vbos : List (SpireVBO B)) :
    iboPrimTypes (vboEvents vbos) = [] := by
  unfold iboPrimTypes vboEvents
  rw [List.filterMap_eq_nil_iff]
  intro e he
  obtain ⟨v, _, hv⟩ := List.mem_map.mp he
  subst hv
  rfl

theorem iboPrimTypes_removePassEntities (strHash : String → Nat) (passes : List SRPass)
    (port : Int) : iboPrimTypes (removePassEntities strHash passes port) = [] := by
  unfold iboPrimTypes removePassEntities
  rw [List.filterMap_eq_nil_iff]
  intro e he
  obtain ⟨v, _, hv⟩ := List.mem_map.mp he
  subst hv
  rfl

/-! ## `handleGeomObject` as a whole -/

theorem handleGeomObject_outcome (ops : BBoxOps B) (strHash : String → Nat)
    (s : SRInterface B) (obj : GeometryObject B) (port : Int) :
    (handleGeomObject ops strHash s obj port).1 = (iboLoop obj.mIBOs).1 := by
  unfold handleGeomObject
  cases h : (iboLoop obj.mIBOs).1 <;> simp [h]

theorem handleGeomObject_returned (ops : BBoxOps B) (strHash : String → Nat)
    (s : SRInterface B) (obj : GeometryObject B) (port : Int)
    (h : (iboLoop obj.mIBOs).1 = Outcome.returned) :
    (handleGeomObject ops strHash s obj port).2
      = recalcSceneBBox ops
          (obj.mPasses.foldl (addPass strHash obj port) (beforePasses ops strHash s obj port)) := by
  unfold handleGeomObject beforePasses
  simp [h, List.append_assoc]

theorem handleGeomObject_threw (ops : BBoxOps B) (strHash : String → Nat)
    (s : SRInterface B) (obj : GeometryObject B) (port : Int) (what : String)
    (h : (iboLoop obj.mIBOs).1 = Outcome.invalidArgument what) :
    (handleGeomObject ops strHash s obj port).2.trace
      = (removeFoundObject strHash obj.objectName port
          { s with trace := s.trace ++ [Event.makeCurrent] }).trace
        ++ vboEvents obj.mVBOs ++ (iboLoop obj.mIBOs).2 := by
  unfold handleGeomObject
  simp [h, List.append_assoc]

theorem foldl_valid_extend (ops : BBoxOps B) (l : List (SRObject B)) (init : B) :
    l.foldl (fun scene o => if ops.valid o.mBBox then ops.extend scene o.mBBox else scene) init
      = ((l.filter (fun o => ops.valid o.mBBox)).map (fun o => o.mBBox)).foldl
          ops.extend init := by
  induction l generalizing init with
  | nil => rfl
  | cons o rest ih =>
    rw [List.foldl_cons, ih]
    cases hv : ops.valid o.mBBox <;> simp [List.filter_cons, hv]

theorem recalcSceneBBox_trace (ops : BBoxOps B) (s : SRInterface B) :
    (recalcSceneBBox ops s).trace = s.trace := rfl

theorem recalcSceneBBox_objects (ops : BBoxOps B) (s : SRInterface B) :
    (recalcSceneBBox ops s).mSRObjects = s.mSRObjects := rfl

theorem beforePasses_objects (ops : BBoxOps B) (strHash : String → Nat)
    (s : SRInterface B) (obj : GeometryObject B) (port : Int) :
    (beforePasses ops strHash s obj port).mSRObjects
      = s.mSRObjects.eraseP (fun o => o.mName == obj.objectName)
        ++ [⟨obj.objectName, [], vboBBox ops obj.mVBOs, obj.mColorMap, port⟩] := by
  unfold beforePasses
  simp [removeFoundObject_objects]

theorem beforePasses_sceneBBox (ops : BBoxOps B) (strHash : String → Nat)
    (s : SRInterface B) (obj : GeometryObject B) (port : Int) :
    (beforePasses ops strHash s obj port).mSceneBBox = s.mSceneBBox := by
  unfold beforePasses
  simp [removeFoundObject_sceneBBox]

theorem handleGeomObject_returned_objects (ops : BBoxOps B) (strHash : String → Nat)
    (s : SRInterface B) (obj : GeometryObject B) (port : Int)
    (h : (iboLoop obj.mIBOs).1 = Outcome.returned) :
    (handleGeomObject ops strHash s obj port).2.mSRObjects
      = s.mSRObjects.eraseP (fun o => o.mName == obj.objectName)
        ++ [⟨obj.objectName, obj.mPasses.map (fun p => (⟨p.passName, p.renderType⟩ : SRPass)),
            vboBBox ops obj.mVBOs, obj.mColorMap, port⟩] := by
  rw [handleGeomObject_returned ops strHash s obj port h, recalcSceneBBox_objects,
    foldl_addPass_objects strHash obj port obj.mPasses _ _ _
      (beforePasses_objects ops strHash s obj port)]
  simp

/-- The entity IDs that one call of `handleGeomObject` removes: those of the passes of the
stored object of the same name, computed with the port of the call. -/
theorem handleGeomObject_removed (ops : BBoxOps B) (strHash : String → Nat)
    (s : SRInterface B) (obj : GeometryObject B) (port : Int) :
    removedEntities (handleGeomObject ops strHash s obj port).2.trace
      = removedEntities s.trace
        ++ (match s.mSRObjects.find? (fun o => o.mName == obj.objectName) with
            | none => []
            | some found =>
              found.mPasses.map (fun p => getEntityIDForName strHash p.passName port)) := by
  have hpre : removedEntities ((removeFoundObject strHash obj.objectName port
        { s with trace := s.trace ++ [Event.makeCurrent] }).trace
        ++ vboEvents obj.mVBOs ++ (iboLoop obj.mIBOs).2)
      = removedEntities s.trace
        ++ (match s.mSRObjects.find? (fun o => o.mName == obj.objectName) with
            | none => []
            | some found =>
              found.mPasses.map (fun p => getEntityIDForName strHash p.passName port)) := by
    rw [removedEntities_append, removedEntities_append, removedEntities_vboEvents,
      removedEntities_iboLoop, removeFoundObject_trace, removedEntities_append,
      removedEntities_append]
    cases s.mSRObjects.find? (fun o => o.mName == obj.objectName) with
    | none => simp [removedEntities]
    | some found =>
      simp only [removedEntities_append, removedEntities_removePassEntities]
      simp [removedEntities]
  cases h : (iboLoop obj.mIBOs).1 with
  | returned =>
    rw [handleGeomObject_returned ops strHash s obj port h, recalcSceneBBox_trace,
      foldl_addPass_trace, removedEntities_append, removedEntities_passEvents,
      List.append_nil]
    unfold beforePasses
    exact hpre
  | invalidArgument what =>
    rw [handleGeomObject_threw ops strHash s obj port what h]
    exact hpre

theorem gcLoop_eq (strHash : String → Nat) (validObjects : List String)
    (kept rest : List (SRObject B)) (trace : List Event) :
    gcLoop strHash validObjects kept rest trace
      = (kept ++ rest.filter (fun o => decide (o.mName ∈ validObjects)),
         trace ++ (rest.filter (fun o => !decide (o.mName ∈ validObjects))).flatMap
            (fun o => removePassEntities strHash o.mPasses o.mPort)) := by
  induction rest generalizing kept trace with
  | nil => simp [gcLoop]
  | cons o rest ih =>
    unfold gcLoop
    by_cases h : o.mName ∈ validObjects
    · simp [h, ih, List.filter_cons]
    · simp [h, ih, List.filter_cons, List.flatMap_cons]

theorem removedEntities_flatMap (strHash : String → Nat) (l : List (SRObject B)) :
    removedEntities (l.flatMap (fun o => removePassEntities strHash o.mPasses o.mPort))
      = l.flatMap (fun o =>
          o.mPasses.map (fun p => getEntityIDForName strHash p.passName o.mPort)) := by
  induction l with
  | nil => rfl
  | cons o rest ih =>
    rw [List.flatMap_cons, List.flatMap_cons, removedEntities_append, ih,
      removedEntities_removePassEntities]

theorem getEntityIDForName_port_zero_one (strHash : String → Nat) (name : String) :
    getEntityIDForName strHash name 1 = getEntityIDForName strHash name 0 + 2 ^ 56 := by
  unfold getEntityIDForName castU64
  simp only [Nat.shiftRight_eq_div_pow, Nat.shiftLeft_eq]
  norm_num
  omega

/-! ## The object list and the entity core -/

/-- C1: when `handleGeomObject(obj, port)` returns normally on a renderer whose object list
has at most one entry per name, the object list afterwards is the previous list without the
entry named `obj.objectName`, the others in their original order, followed by one new entry
named `obj.objectName`, with port `port` and with the `(passName, renderType)` pairs of
`obj.mPasses` in order as its pass list. -/
theorem handleGeomObject_object_list (ops : BBoxOps B) (strHash : String → Nat)
    (s : SRInterface B) (obj : GeometryObject B) (port : Int)
    (hnodup : (s.mSRObjects.map (fun o => o.mName)).Nodup)
    (hret : (handleGeomObject ops strHash s obj port).1 = Outcome.returned) :
    (handleGeomObject ops strHash s obj port).2.mSRObjects
      = s.mSRObjects.filter (fun o => o.mName != obj.objectName)
        ++ [⟨obj.objectName, obj.mPasses.map (fun p => (⟨p.passName, p.renderType⟩ : SRPass)),
            vboBBox ops obj.mVBOs, obj.mColorMap, port⟩] := by
  rw [handleGeomObject_outcome] at hret
  rw [handleGeomObject_returned_objects ops strHash s obj port hret,
    eraseP_name_eq_filter obj.objectName s.mSRObjects hnodup]

theorem handleGeomObject_object_list_witness :
    ((twoObjectRenderer.mSRObjects.map (fun o => o.mName)).Nodup
      ∧ (handleGeomObject intervalBox String.length twoObjectRenderer fieldObject 1).1
          = Outcome.returned)
    ∧ (handleGeomObject intervalBox String.length twoObjectRenderer fieldObject 1).2.mSRObjects
      = twoObjectRenderer.mSRObjects.filter (fun o => o.mName != fieldObject.objectName)
        ++ [⟨fieldObject.objectName,
            fieldObject.mPasses.map (fun p => (⟨p.passName, p.renderType⟩ : SRPass)),
            vboBBox intervalBox fieldObject.mVBOs, fieldObject.mColorMap, 1⟩] :=
  ⟨⟨by simp [twoObjectRenderer], by rfl⟩,
    handleGeomObject_object_list intervalBox String.length twoObjectRenderer fieldObject 1
      (by simp [twoObjectRenderer]) (by rfl)⟩

/-- C2, evaluated on the code: "field" is sent on port 0 to an empty renderer and then sent
again on port 1.  The first call registers the pass under the entity ID made from port 0; the
second call removes only the ID made from port 1, so the registered ID is never removed. -/
theorem handleGeomObject_port_change_keeps_entity (strHash : String → Nat) :
    ((handleGeomObject intervalBox strHash emptyRenderer fieldObject 0).2.mSRObjects.map
        (fun o => (o.mName, o.mPort, o.mPasses.map (fun p => p.passName)))
        = [("field", 0, ["facesPass"])])
    ∧ Event.addComponent (getEntityIDForName strHash "facesPass" 0)
          (Component.subPass "facesPass")
        ∈ (handleGeomObject intervalBox strHash emptyRenderer fieldObject 0).2.trace
    ∧ removedEntities (handleGeomObject intervalBox strHash
          (handleGeomObject intervalBox strHash emptyRenderer fieldObject 0).2
          fieldObject 1).2.trace
        = [getEntityIDForName strHash "facesPass" 1]
    ∧ getEntityIDForName strHash "facesPass" 0
        ∉ removedEntities (handleGeomObject intervalBox strHash
          (handleGeomObject intervalBox strHash emptyRenderer fieldObject 0).2
          fieldObject 1).2.trace := by
  have hib : (iboLoop fieldObject.mIBOs).1 = Outcome.returned := by rfl
  have hobjs := handleGeomObject_returned_objects intervalBox strHash emptyRenderer
    fieldObject 0 hib
  have hrem : removedEntities (handleGeomObject intervalBox strHash
          (handleGeomObject intervalBox strHash emptyRenderer fieldObject 0).2
          fieldObject 1).2.trace
        = [getEntityIDForName strHash "facesPass" 1] := by
    rw [handleGeomObject_removed, handleGeomObject_removed, hobjs]
    simp [emptyRenderer, fieldObject, removedEntities]
  refine ⟨?_, ?_, hrem, ?_⟩
  · rw [hobjs]
    simp [emptyRenderer, fieldObject]
  · rw [handleGeomObject_returned intervalBox strHash emptyRenderer fieldObject 0 hib,
      recalcSceneBBox_trace, foldl_addPass_trace]
    simp [fieldObject, passEvents]
  · rw [hrem, getEntityIDForName_port_zero_one]
    simp

/-- C3: `gcInvalidObjects(validObjects)` leaves the object list equal to the previous list
filtered to the entries whose name occurs in `validObjects`, in their original order, and
the entity IDs it removes are, in order, `getEntityIDForName(p.passName, o.mPort)` for every
pass `p` of every dropped object `o`. -/
theorem gcInvalidObjects_filters (strHash : String → Nat) (validObjects : List String)
    (s : SRInterface B) :
    (gcInvalidObjects strHash validObjects s).mSRObjects
        = s.mSRObjects.filter (fun o => decide (o.mName ∈ validObjects))
    ∧ removedEntities (gcInvalidObjects strHash validObjects s).trace
        = removedEntities s.trace
          ++ (s.mSRObjects.filter (fun o => !decide (o.mName ∈ validObjects))).flatMap
              (fun o => o.mPasses.map
                (fun p => getEntityIDForName strHash p.passName o.mPort)) := by
  unfold gcInvalidObjects
  rw [gcLoop_eq]
  refine ⟨by simp, ?_⟩
  simp only
  rw [removedEntities_append, removedEntities_append, removedEntities_flatMap]
  simp [removedEntities]

/-- C4: `removeAllGeomObjects` leaves the object list empty and removes, in order, the entity
ID `getEntityIDForName(p.passName, o.mPort)` of every pass `p` of every object `o` that was
stored. -/
theorem removeAllGeomObjects_clears (strHash : String → Nat) (s : SRInterface B) :
    (removeAllGeomObjects strHash s).mSRObjects = []
    ∧ removedEntities (removeAllGeomObjects strHash s).trace
        = removedEntities s.trace
          ++ s.mSRObjects.flatMap (fun o => o.mPasses.map
              (fun p => getEntityIDForName strHash p.passName o.mPort)) := by
  unfold removeAllGeomObjects
  refine ⟨rfl, ?_⟩
  simp only
  rw [removedEntities_append, removedEntities_append, removedEntities_append,
    removedEntities_flatMap]
  simp [removedEntities]

/-- C5: after `handleGeomObject` returns normally, `mSceneBBox` is the reset box extended in
turn by the bounding boxes of exactly the stored objects whose box is valid; when no stored
object has a valid box it is the reset box, which is not valid (`hreset`: a box that has
just been reset is not valid). -/
theorem handleGeomObject_scene_bbox (ops : BBoxOps B) (strHash : String → Nat)
    (s : SRInterface B) (obj : GeometryObject B) (port : Int)
    (hreset : ∀ b, ops.valid (ops.reset b) = false)
    (hret : (handleGeomObject ops strHash s obj port).1 = Outcome.returned) :
    (handleGeomObject ops strHash s obj port).2.mSceneBBox
        = (((handleGeomObject ops strHash s obj port).2.mSRObjects.filter
              (fun o => ops.valid o.mBBox)).map (fun o => o.mBBox)).foldl
            ops.extend (ops.reset s.mSceneBBox)
    ∧ ((∀ o ∈ (handleGeomObject ops strHash s obj port).2.mSRObjects,
          ops.valid o.mBBox = false) →
        (handleGeomObject ops strHash s obj port).2.mSceneBBox = ops.reset s.mSceneBBox
        ∧ ops.valid (handleGeomObject ops strHash s obj port).2.mSceneBBox = false) := by
  rw [handleGeomObject_outcome] at hret
  have hmain : (handleGeomObject ops strHash s obj port).2.mSceneBBox
        = (((handleGeomObject ops strHash s obj port).2.mSRObjects.filter
              (fun o => ops.valid o.mBBox)).map (fun o => o.mBBox)).foldl
            ops.extend (ops.reset s.mSceneBBox) := by
    rw [handleGeomObject_returned ops strHash s obj port hret]
    unfold recalcSceneBBox
    simp only
    rw [foldl_valid_extend, foldl_addPass_sceneBBox, beforePasses_sceneBBox]
  refine ⟨hmain, ?_⟩
  intro hnone
  have hfilter : (handleGeomObject ops strHash s obj port).2.mSRObjects.filter
      (fun o => ops.valid o.mBBox) = [] := by
    rw [List.filter_eq_nil_iff]
    intro o ho
    simp [hnone o ho]
  have hsame : (handleGeomObject ops strHash s obj port).2.mSceneBBox
      = ops.reset s.mSceneBBox := by
    rw [hmain, hfilter]
    rfl
  exact ⟨hsame, by rw [hsame]; exact hreset _⟩

theorem handleGeomObject_scene_bbox_witness :
    ((∀ b, intervalBox.valid (intervalBox.reset b) = false)
      ∧ (handleGeomObject intervalBox String.length twoObjectRenderer fieldObject 1).1
          = Outcome.returned)
    ∧ (handleGeomObject intervalBox String.length twoObjectRenderer fieldObject 1).2.mSceneBBox
        = some (0, 5) := by
  have h := handleGeomObject_scene_bbox intervalBox String.length twoObjectRenderer
    fieldObject 1 (fun _ => rfl) (by rfl)
  refine ⟨⟨fun _ => rfl, by rfl⟩, ?_⟩
  rw [h.1]
  rfl

/-- C6: `handleGeomObject` throws `std::invalid_argument("Unable to determine index buffer
depth.")` exactly when some index buffer of `obj` has an `indexSize` other than 1, 2 and 4,
and returns normally otherwise; the index buffers handed to the IBO manager are those before
the first such buffer, with index type `GL_UNSIGNED_BYTE`, `GL_UNSIGNED_SHORT` and
`GL_UNSIGNED_INT` for `indexSize` 1, 2 and 4. -/
theorem handleGeomObject_index_depth (ops : BBoxOps B) (strHash : String → Nat)
    (s : SRInterface B) (obj : GeometryObject B) (port : Int) :
    ((handleGeomObject ops strHash s obj port).1
          = Outcome.invalidArgument "Unable to determine index buffer depth."
        ↔ ∃ ibo ∈ obj.mIBOs, ibo.indexSize ≠ 1 ∧ ibo.indexSize ≠ 2 ∧ ibo.indexSize ≠ 4)
    ∧ ((handleGeomObject ops strHash s obj port).1 = Outcome.returned
        ↔ ∀ ibo ∈ obj.mIBOs, ibo.indexSize = 1 ∨ ibo.indexSize = 2 ∨ ibo.indexSize = 4)
    ∧ iboPrimTypes (handleGeomObject ops strHash s obj port).2.trace
        = iboPrimTypes s.trace
          ++ (obj.mIBOs.takeWhile (fun ibo =>
                decide (ibo.indexSize = 1 ∨ ibo.indexSize = 2 ∨ ibo.indexSize = 4))).map
              (fun ibo => (ibo.name,
                if ibo.indexSize = 1 then GLenum.GL_UNSIGNED_BYTE
                else if ibo.indexSize = 2 then GLenum.GL_UNSIGNED_SHORT
                else GLenum.GL_UNSIGNED_INT)) := by
  rw [handleGeomObject_outcome]
  refine ⟨(iboLoop_outcome obj.mIBOs).1, (iboLoop_outcome obj.mIBOs).2, ?_⟩
  have hpre : iboPrimTypes ((removeFoundObject strHash obj.objectName port
        { s with trace := s.trace ++ [Event.makeCurrent] }).trace
        ++ vboEvents obj.mVBOs ++ (iboLoop obj.mIBOs).2)
      = iboPrimTypes s.trace ++ iboPrimTypes (iboLoop obj.mIBOs).2 := by
    rw [iboPrimTypes_append, iboPrimTypes_append, iboPrimTypes_vboEvents,
      removeFoundObject_trace, iboPrimTypes_append, iboPrimTypes_append]
    cases s.mSRObjects.find? (fun o => o.mName == obj.objectName) with
    | none => simp [iboPrimTypes]
    | some found =>
      simp only [iboPrimTypes_append, iboPrimTypes_removePassEntities]
      simp [iboPrimTypes]
  rw [← iboPrimTypes_iboLoop, ← hpre]
  cases h : (iboLoop obj.mIBOs).1 with
  | returned =>
    rw [handleGeomObject_returned ops strHash s obj port h, recalcSceneBBox_trace,
      foldl_addPass_trace, iboPrimTypes_append, iboPrimTypes_passEvents,
      List.append_nil]
    rfl
  | invalidArgument what =>
    rw [handleGeomObject_threw ops strHash s obj port what h]

end Lemmas

end Render

namespace WriteBundleAlgorithm

/-! ## The bundle writer -/

/-- C7: `run` with a null `inputBundle` fails with the algorithm input error "Cannot write
null bundle." for every filename, with no file opened or written and the file system as it
was. -/
theorem run_null_bundle {Bundle : Type} (env : Writers Bundle) (w : World)
    (filename : String) :
    (run env w none filename).1
        = some (AlgorithmError.inputError "Cannot write null bundle.")
    ∧ (run env w none filename).2.fileOps = w.fileOps
    ∧ (run env w none filename).2.files = w.files :=
  ⟨rfl, rfl, rfl⟩

/-- C8, evaluated on the code: for a bundle that is not null and a filename at which a file
already exists, `run` returns without raising although the call writes nothing to the file,
both when the extension is unsupported and when the `.bdl` output stream cannot be opened. -/
theorem run_silent_on_existing_file {Bundle : Type} (env : Writers Bundle) (w : World)
    (bundle : Bundle) (filename : String)
    (hexists : (w.files filename).isSome = true)
    (htxt : env.extension filename ≠ ".txt")
    (hbdl : env.extension filename = ".bdl" → w.canOpen filename = false) :
    (run env w (some bundle) filename).1 = none
    ∧ (run env w (some bundle) filename).2.files = w.files
    ∧ wroteTo w (run env w (some bundle) filename).2 filename = false := by
  by_cases hb : env.extension filename = ".bdl"
  · have hopen := hbdl hb
    have hne : ¬ (".bdl" = ".txt") := by decide
    simp [run, ensureAlgorithmInputNotNull, writeByExtension, writeFile, hb, hopen, hexists,
      wroteTo, hne]
  · simp [run, ensureAlgorithmInputNotNull, writeByExtension, htxt, hb, hexists, wroteTo]

/-- What `run` does guarantee for a bundle that is not null: it raises exactly the
processing error "file failed to be written!", and exactly when no file exists at `filename`
after the write attempt; so when no file existed at `filename` before the call and `run`
returns without raising, the call wrote to `filename`. -/
theorem run_raises_iff_missing {Bundle : Type} (env : Writers Bundle) (w : World)
    (bundle : Bundle) (filename : String) :
    ((run env w (some bundle) filename).1
          = some (AlgorithmError.processingError "file failed to be written!")
        ↔ (run env w (some bundle) filename).2.files filename = none)
    ∧ ((run env w (some bundle) filename).1 = none
        ↔ ((run env w (some bundle) filename).2.files filename).isSome = true)
    ∧ (w.files filename = none → (run env w (some bundle) filename).1 = none →
        wroteTo w (run env w (some bundle) filename).2 filename = true) := by
  refine ⟨?_, ?_, ?_⟩
  · simp only [run, ensureAlgorithmInputNotNull]
    cases h : (writeByExtension env w bundle filename).files filename <;> simp [h]
  · simp only [run, ensureAlgorithmInputNotNull]
    cases h : (writeByExtension env w bundle filename).files filename <;> simp [h]
  · intro hnone hret
    simp only [run, ensureAlgorithmInputNotNull] at hret ⊢
    by_cases ht : env.extension filename = ".txt"
    · by_cases ho : w.canOpen filename = true
      · simp [writeByExtension, writeFile, ht, ho, wroteTo]
      · simp [writeByExtension, writeFile, ht, ho, hnone] at hret
    · by_cases hb : env.extension filename = ".bdl"
      · by_cases ho : w.canOpen filename = true
        · simp [writeByExtension, writeFile, ht, hb, ho, wroteTo]
        · simp [writeByExtension, writeFile, ht, hb, ho, hnone] at hret
      · simp [writeByExtension, ht, hb, hnone] at hret

theorem run_silent_on_existing_file_witness :
    ((sampleWorld.files "results.mat").isSome = true
      ∧ sampleWriters.extension "results.mat" ≠ ".txt"
      ∧ (sampleWriters.extension "results.mat" = ".bdl"
          → sampleWorld.canOpen "results.mat" = false))
    ∧ (run sampleWriters sampleWorld (some [1, 2, 3]) "results.mat").1 = none
    ∧ (run sampleWriters sampleWorld (some [1, 2, 3]) "results.mat").2.files
        = sampleWorld.files
    ∧ wroteTo sampleWorld (run sampleWriters sampleWorld (some [1, 2, 3]) "results.mat").2
        "results.mat" = false :=
  ⟨⟨by decide, by decide, by decide⟩,
    run_silent_on_existing_file sampleWriters sampleWorld [1, 2, 3] "results.mat"
      (by decide) (by decide) (by decide)⟩

end WriteBundleAlgorithm

end SCIRun
